import Mathlib

set_option autoImplicit false

/-!
Verification development for the RISC-V CoVE/TEE firmware modules
(`UefiCpuPkg/RiscVCoVEDxe`, `UefiCpuPkg/RiscVTeeDxe`, the MPXY transport
libraries and the RISC-V StandaloneMm core entry point).  Each C function
relevant to the analysed properties is shallowly embedded as an executable
Lean function over explicit state, with the monitor (SBI) calls and MMIO
accesses represented by an environment record and an event trace.
-/

/-- EFI status codes used by the embedded modules (symbolic; the numeric
UEFI encodings are irrelevant to the analysed properties). -/
inductive EFI_STATUS where
  | EFI_SUCCESS
  | EFI_LOAD_ERROR
  | EFI_INVALID_PARAMETER
  | EFI_UNSUPPORTED
  | EFI_DEVICE_ERROR
  | EFI_OUT_OF_RESOURCES
  | EFI_NOT_FOUND
  | EFI_ACCESS_DENIED
  | EFI_NOT_READY
  | EFI_ALREADY_STARTED
  | EFI_NOT_STARTED
deriving DecidableEq, Repr

open EFI_STATUS

/-- `SBI_RET` from `BaseRiscVSbiLib.h`: both fields are `UINTN`, so error
codes that are negative in the SBI spec appear wrapped modulo `2^64`. -/
structure SBI_RET where
  Error : Nat
  Value : Nat
deriving DecidableEq, Repr

/-- Two's-complement wrap of an `INTN` value into a `UINTN`. -/
def UINTN_OF_INT (i : Int) : Nat := (i % (2 : Int) ^ 64).toNat

def SBI_SUCCESS : Nat := 0
def SBI_ERR_FAILED : Nat := UINTN_OF_INT (-1)
def SBI_ERR_NOT_SUPPORTED : Nat := UINTN_OF_INT (-2)
def SBI_ERR_INVALID_PARAM : Nat := UINTN_OF_INT (-3)
def SBI_ERR_DENIED : Nat := UINTN_OF_INT (-4)
def SBI_ERR_INVALID_ADDRESS : Nat := UINTN_OF_INT (-5)
def SBI_ERR_ALREADY_AVAILABLE : Nat := UINTN_OF_INT (-6)

/-- `SBI_TEE_ERR` and the CoVE analog both use `0` for success and small
positive enumerators for errors (`BaseRiscVTeeLib.h`). -/
def SBI_TEE_SUCCESS : Nat := 0
def SBI_TEE_ERR_ALREADY_STARTED : Nat := 4
def SBI_COVE_SUCCESS : Nat := 0

def SIZE_4KB : Nat := 0x1000
def SIZE_16KB : Nat := 0x4000

/-- Constants from `RiscVTeeDxe.h`; the CoVE module header mirrors them. -/
def RISCV_TEE_VCPU_ID : Nat := 0
def RISCV_COVE_VCPU_ID : Nat := 0
def MM_VM_RAM_BASE : Nat := 0x80000000
def MM_VM_BOOT_INFO_OFFSET : Nat := 0x00000000
def MM_VM_BOOT_STACK_OFFSET : Nat := 0x00010000
def MM_VM_BOOT_HEAP_OFFSET : Nat := 0x00020000
def MM_VM_RAM_MM_SHARED_BUF_OFFSET : Nat := 0x00100000
def MM_VM_RAM_IMAGE_START_OFFSET : Nat := 0x00200000
def MM_VM_BOOT_INFO_SIZE : Nat := 0x00010000
def MM_VM_BOOT_STACK_SIZE : Nat := 0x00010000
def MM_VM_BOOT_HEAP_SIZE : Nat := 0x00010000
def MM_VM_RAM_MM_SHARED_BUF_SIZE : Nat := 0x00100000

/-- Extension ids from `RiscVCoVEDxe.c`. -/
def EXT_COVE_GUEST : Nat := 0x434F5647
def EXT_PUT_CHAR : Nat := 0x1

/-- RISC-V exception cause values (`EXCEPT_RISCV_*`, matching the cause
enumeration in `BaseRiscVTeeLib.h`). -/
def EXCEPT_RISCV_ENV_CALL_FROM_VS_MODE : Nat := 10
def EXCEPT_RISCV_LOAD_GUEST_PAGE_FAULT : Nat := 21
def EXCEPT_RISCV_VIRTUAL_INSTRUCTION : Nat := 22
def EXCEPT_RISCV_STORE_GUEST_PAGE_FAULT : Nat := 23

/-- Module-level mutable state of `RiscVCoVEDxe.c`.  The host shared-memory
pointer is kept as the raw pointer value (`0` models `NULL`). -/
structure CoVEState where
  mTvmGuestId : Nat
  mTvmRunBlock : Bool
  mGuestSharedMemoryBase : Nat
  mGuestSharedMemorySize : Nat
  mHostSharedMemoryBase : Nat
deriving DecidableEq, Repr

/-- Environment of one trap-handling step: the values the handler reads from
the NACL shared-memory area and CSRs, the results of the SBI calls it makes,
and the MMIO device contents. -/
structure CoVEEnv where
  /-- Guest GPRs A0..A7 as read from `TsmScratch->GuestGprs[10..17]`;
  index `0` is A0. -/
  aRegs : Nat → Nat
  /-- `HTINST` CSR value from the NACL shared memory. -/
  htinst : Nat
  /-- `HTVAL` CSR value from the NACL shared memory. -/
  htval : Nat
  /-- `stval` supervisor CSR. -/
  stval : Nat
  /-- MMIO device read: address and access size to value. -/
  memRead : Nat → Nat → Nat
  /-- Result of the `SbiCoVHRunTvmVcpu` call at the head of the run loop. -/
  vcpuRunRet : SBI_RET
  /-- Result of the `SbiCoVHRunTvmVcpu` call inside the guest-request
  handler. -/
  runTvmRet : SBI_RET
  /-- Result of the `SbiCoVHTvmFence` call inside the guest-request handler
  (never read by the handler: the source discards this status). -/
  tvmFenceRet : SBI_RET
  /-- Result of the put-char `SbiCall`. -/
  putCharRet : SBI_RET
  /-- Result of the `SbiCoVHAddTvmSharedPages` call. -/
  addSharedPagesRet : SBI_RET
  /-- Pointer returned by `AllocateRuntimePages` (`0` models `NULL`). -/
  allocatedPages : Nat

/-- Observable actions of the CoVE host module: SBI calls into the monitor,
writes to the guest GPR area, MMIO device accesses, and `ASSERT` failures. -/
inductive Event where
  | runTvmVcpu (tvmId vcpuId : Nat)
  | tvmFence (tvmId : Nat)
  | putChar (c : Nat)
  | addTvmSharedPages (tvmId addr numPages gpa : Nat)
  | guestWriteA0 (v : Nat)
  | mmioRead (addr size val : Nat)
  | mmioWrite (addr size val : Nat)
  | assertFail
deriving DecidableEq, Repr

/-- `RiscVCoVEMmioRegionCheck` in `RiscVCoVEDxe.c`: a stub that accepts any
region. -/
def RiscVCoVEMmioRegionCheck (_Address _Len : Nat) : Bool := true

/-- `RiscVCoVEHandleMmioAccess` in `RiscVCoVEDxe.c` (lines 133-231):
decodes the instruction read from `HTINST`, first the opcode (low two bits
must be `0b11`, bits `[6:2]` select load `0b00000` or store `0b01000`),
then the width from funct3 (bits `[14:12]`), and performs the MMIO access,
exchanging the data through guest GPR A0. -/
def RiscVCoVEHandleMmioAccess (s : CoVEState) (e : CoVEEnv) (FaultAddr : Nat) :
    EFI_STATUS × CoVEState × List Event :=
  let Instruction := e.htinst % 2 ^ 32
  let writeDecode : Option Bool :=
    if Instruction % 4 = 3 then
      if (Instruction >>> 2) % 32 = 0 then some false
      else if (Instruction >>> 2) % 32 = 8 then some true
      else none
    else none
  match writeDecode with
  | none => (EFI_INVALID_PARAMETER, s, [])
  | some Write =>
    let sizeDecode : Option Nat :=
      if (Instruction >>> 12) % 8 = 0 ∨ (Instruction >>> 12) % 8 = 4 then some 1
      else if (Instruction >>> 12) % 8 = 1 ∨ (Instruction >>> 12) % 8 = 5 then some 2
      else if (Instruction >>> 12) % 8 = 2 ∨ (Instruction >>> 12) % 8 = 6 then some 4
      else if (Instruction >>> 12) % 8 = 3 then some 8
      else none
    match sizeDecode with
    | none => (EFI_INVALID_PARAMETER, s, [])
    | some Size =>
      if ¬ RiscVCoVEMmioRegionCheck FaultAddr Size then
        (EFI_INVALID_PARAMETER, s, [])
      else if ¬ Write then
        let Val := e.memRead FaultAddr Size % 2 ^ (8 * Size)
        (EFI_SUCCESS, s, [Event.mmioRead FaultAddr Size Val, Event.guestWriteA0 Val])
      else
        let Val := e.aRegs 0
        (EFI_SUCCESS, s, [Event.mmioWrite FaultAddr Size (Val % 2 ^ (8 * Size))])

/-- `RiscVCoVEHandleGuestRequest` in `RiscVCoVEDxe.c` (lines 73-131): decodes
the guest sub-operation from A6 of the guest GPR image, services it, and, if
the calling VCPU is blocked, resumes it with `SbiCoVHRunTvmVcpu` and issues
`SbiCoVHTvmFence` (whose result the source discards). -/
def RiscVCoVEHandleGuestRequest (s : CoVEState) (e : CoVEEnv) :
    EFI_STATUS × CoVEState × List Event :=
  let r1 : EFI_STATUS × CoVEState × List Event :=
    if e.aRegs 6 = 0 then
      -- AddMmioRegion
      if RiscVCoVEMmioRegionCheck (e.aRegs 0) (e.aRegs 1) ≠ true then
        (EFI_ACCESS_DENIED, s, [])
      else
        (EFI_SUCCESS, s, [])
    else if e.aRegs 6 = 1 then
      -- RemoveMmioRegion
      (EFI_SUCCESS, s, [])
    else if e.aRegs 6 = 2 then
      -- AddSharedMemory: the recorded base/size are written before checks
      let s2 := { s with
        mGuestSharedMemoryBase := e.aRegs 0,
        mGuestSharedMemorySize := e.aRegs 1 }
      if s2.mHostSharedMemoryBase ≠ 0 then
        (EFI_ALREADY_STARTED, s2, [])
      else if s2.mGuestSharedMemorySize > MM_VM_RAM_MM_SHARED_BUF_SIZE then
        (EFI_SUCCESS, s2, [])
      else
        (EFI_SUCCESS, s2, [Event.guestWriteA0 0])
    else if e.aRegs 6 = 3 then
      -- UnshareMemory: ASSERT (FALSE)
      (EFI_SUCCESS, s, [Event.assertFail])
    else
      (EFI_NOT_FOUND, s, [])
  if r1.2.1.mTvmRunBlock then
    (r1.1,
     { r1.2.1 with mTvmRunBlock := decide (e.runTvmRet.Value % 256 ≠ 0) },
     r1.2.2 ++ [Event.runTvmVcpu r1.2.1.mTvmGuestId RISCV_COVE_VCPU_ID] ++
       (if e.runTvmRet.Error ≠ SBI_COVE_SUCCESS then [Event.assertFail] else []) ++
       [Event.tvmFence r1.2.1.mTvmGuestId])
  else
    r1

/-- `RiscVCoVEException` in `RiscVCoVEDxe.c` (lines 240-304): the trap
dispatcher of the VCPU run loop.  `Status` starts as
`EFI_INVALID_PARAMETER`; three sequential `if`s handle the VS-mode ecall,
the guest load/store page faults (with the faulting address computed as
`(HTVAL << 2) | (STVAL & 0x3)`) and the virtual-instruction exception. -/
def RiscVCoVEException (InterruptType : Nat) (s : CoVEState) (e : CoVEEnv) :
    EFI_STATUS × CoVEState × List Event :=
  let r0 : EFI_STATUS × CoVEState × List Event := (EFI_INVALID_PARAMETER, s, [])
  let r1 :=
    if InterruptType = EXCEPT_RISCV_ENV_CALL_FROM_VS_MODE then
      if e.aRegs 7 = EXT_COVE_GUEST then
        RiscVCoVEHandleGuestRequest s e
      else if e.aRegs 7 = EXT_PUT_CHAR then
        (EFI_SUCCESS, s,
         [Event.putChar (e.aRegs 0)] ++
           (if e.putCharRet.Error ≠ SBI_SUCCESS then [Event.assertFail] else []) ++
           [Event.guestWriteA0 0])
      else
        r0
    else
      r0
  let r2 :=
    if InterruptType = EXCEPT_RISCV_LOAD_GUEST_PAGE_FAULT ∨
       InterruptType = EXCEPT_RISCV_STORE_GUEST_PAGE_FAULT then
      let FaultAddr := ((e.htval <<< 2) % 2 ^ 64) ||| (e.stval &&& 3)
      let s1 := r1.2.1
      if MM_VM_RAM_BASE + MM_VM_RAM_MM_SHARED_BUF_OFFSET ≤ FaultAddr ∧
         FaultAddr < MM_VM_RAM_BASE + MM_VM_RAM_MM_SHARED_BUF_OFFSET +
           MM_VM_RAM_MM_SHARED_BUF_SIZE then
        if s1.mHostSharedMemoryBase = 0 then
          (EFI_SUCCESS,
           { s1 with mHostSharedMemoryBase := e.allocatedPages },
           r1.2.2 ++
             (if e.allocatedPages = 0 then [Event.assertFail] else []) ++
             [Event.addTvmSharedPages s1.mTvmGuestId e.allocatedPages
               (MM_VM_RAM_MM_SHARED_BUF_SIZE / SIZE_4KB)
               (MM_VM_RAM_BASE + MM_VM_RAM_MM_SHARED_BUF_OFFSET)] ++
             (if e.addSharedPagesRet.Error ≠ SBI_SUCCESS then [Event.assertFail] else []))
        else
          (EFI_SUCCESS, s1, r1.2.2)
      else if RiscVCoVEMmioRegionCheck FaultAddr 0 then
        let r := RiscVCoVEHandleMmioAccess s1 e FaultAddr
        (r.1, r.2.1, r1.2.2 ++ r.2.2)
      else
        (EFI_INVALID_PARAMETER, s1, r1.2.2)
    else
      r1
  if InterruptType = EXCEPT_RISCV_VIRTUAL_INSTRUCTION then
    (EFI_INVALID_PARAMETER, r2.2.1, r2.2.2)
  else
    r2

/-- The do/while loop of `RiscVTriggerMM` in `RiscVCoVEDxe.c` (lines
321-329), driven by a finite schedule of trap causes with their
environments.  Each iteration resumes the VCPU with `SbiCoVHRunTvmVcpu`
and dispatches on the trap cause; the loop continues while the dispatcher
does not report `EFI_INVALID_PARAMETER`.  The third component counts the
traps consumed before the loop stopped (or the schedule ran out). -/
def RiscVTriggerMMLoop (s : CoVEState) :
    List (Nat × CoVEEnv) → CoVEState × List Event × Nat
  | [] => (s, [], 0)
  | (scause, e) :: rest =>
    let s0 := { s with mTvmRunBlock := decide (e.vcpuRunRet.Value % 256 ≠ 0) }
    let evs0 := [Event.runTvmVcpu s.mTvmGuestId RISCV_COVE_VCPU_ID] ++
      (if e.vcpuRunRet.Error ≠ SBI_COVE_SUCCESS then [Event.assertFail] else [])
    let r := RiscVCoVEException scause s0 e
    if r.1 ≠ EFI_INVALID_PARAMETER then
      let rec' := RiscVTriggerMMLoop r.2.1 rest
      (rec'.1, evs0 ++ r.2.2 ++ rec'.2.1, rec'.2.2 + 1)
    else
      (r.2.1, evs0 ++ r.2.2, 1)

/-! ## Delegated secure-partition event loop (`StandaloneMmCoreEntryPoint.c`) -/

/-- SMM return codes from `StandaloneMmCoreEntryPoint.h` (lines 58-63),
stored into a `UINTN`, hence wrapped modulo `2^64`. -/
def RISCV_SMM_RET_SUCCESS : Nat := 0
def RISCV_SMM_RET_NOT_SUPPORTED : Nat := UINTN_OF_INT (-1)
def RISCV_SMM_RET_INVALID_PARAMS : Nat := UINTN_OF_INT (-2)
def RISCV_SMM_RET_DENIED : Nat := UINTN_OF_INT (-3)
def RISCV_SMM_RET_NO_MEMORY : Nat := UINTN_OF_INT (-4)

/-- The `mm_data` argument block (`RISCV_SMM_MSG_COMM_ARGS`). -/
structure RISCV_SMM_MSG_COMM_ARGS where
  Arg0 : Nat
  Arg1 : Nat
deriving DecidableEq, Repr

/-- Transport-visible actions of the delegated event loop. -/
inductive MmEvent where
  /-- `RetrieveReqFwdMessage`: one `REQFWD_RETRIEVE_CURRENT_MESSAGE` send. -/
  | retrieveMessage
  /-- One invocation of the registered dispatcher (`CpuDriverEntryPoint`)
  with the computed input-buffer address. -/
  | dispatch (inputBuffer : Nat)
  /-- `SendMMComplete`: one `REQFWD_COMPLETE_CURRENT_MESSAGE` send carrying
  the `mm_data` arguments as transmitted. -/
  | complete (Arg0 Arg1 : Nat)
deriving DecidableEq, Repr

/-- `SendMMComplete` in `StandaloneMmCoreEntryPoint.c` (lines 103-136): sets
`mm_data.Arg0 = 0` and `mm_data.Arg1 = 0` and then sends the completion
message.  Returns the updated argument block and the message event as
transmitted. -/
def SendMMComplete (args : RISCV_SMM_MSG_COMM_ARGS) :
    RISCV_SMM_MSG_COMM_ARGS × MmEvent :=
  let args1 := { args with Arg0 := 0, Arg1 := 0 }
  (args1, MmEvent.complete args1.Arg0 args1.Arg1)

/-- One `while (TRUE)` body per schedule entry of `DelegatedEventLoop`
(`StandaloneMmCoreEntryPoint.c` lines 264-299).  A schedule entry is the
retrieved message's `mm_data.Arg1` (payload offset) together with the
dispatcher's result for that payload. -/
def DelegatedEventLoopAux (inputBuffer : Nat) (args : RISCV_SMM_MSG_COMM_ARGS) :
    List (Nat × EFI_STATUS) → List MmEvent
  | [] => []
  | (arg1, res) :: rest =>
    let inputBuffer1 := (inputBuffer + arg1) % 2 ^ 64
    let SmmStatus :=
      match res with
      | EFI_SUCCESS => RISCV_SMM_RET_SUCCESS
      | EFI_INVALID_PARAMETER => RISCV_SMM_RET_INVALID_PARAMS
      | EFI_ACCESS_DENIED => RISCV_SMM_RET_DENIED
      | EFI_OUT_OF_RESOURCES => RISCV_SMM_RET_NO_MEMORY
      | EFI_UNSUPPORTED => RISCV_SMM_RET_NOT_SUPPORTED
      | _ => RISCV_SMM_RET_NOT_SUPPORTED
    let args1 := { args with Arg0 := SmmStatus }
    let r := SendMMComplete args1
    MmEvent.retrieveMessage :: MmEvent.dispatch inputBuffer1 :: r.2 ::
      DelegatedEventLoopAux inputBuffer1 r.1 rest

/-- `DelegatedEventLoop` (`StandaloneMmCoreEntryPoint.c` lines 248-300):
the initial `SendMMComplete` followed by the service loop. -/
def DelegatedEventLoop (inputBuffer : Nat) (args : RISCV_SMM_MSG_COMM_ARGS)
    (schedule : List (Nat × EFI_STATUS)) : List MmEvent :=
  let r := SendMMComplete args
  r.2 :: DelegatedEventLoopAux inputBuffer r.1 schedule

/-! ## MPXY transport (`CommonRiscvMpxy.c` / `DxeRiscvMpxy.c`) -/

/-- Modelled from the spec: `TranslateError` is declared in
`BaseRiscVSbiLib.h` but its implementation is not among the sources; §6 of
the specification fixes the SBI status-code enumeration and the library maps
them onto EFI statuses in the standard edk2 way (success to success,
parameter errors to `EFI_INVALID_PARAMETER`, and so on, defaulting to
`EFI_DEVICE_ERROR`). -/
def TranslateError (SbiError : Nat) : EFI_STATUS :=
  if SbiError = SBI_SUCCESS then EFI_SUCCESS
  else if SbiError = SBI_ERR_FAILED then EFI_DEVICE_ERROR
  else if SbiError = SBI_ERR_NOT_SUPPORTED then EFI_UNSUPPORTED
  else if SbiError = SBI_ERR_INVALID_PARAM then EFI_INVALID_PARAMETER
  else if SbiError = SBI_ERR_DENIED then EFI_ACCESS_DENIED
  else if SbiError = SBI_ERR_INVALID_ADDRESS then EFI_LOAD_ERROR
  else if SbiError = SBI_ERR_ALREADY_AVAILABLE then EFI_ALREADY_STARTED
  else EFI_DEVICE_ERROR

/-- Module state of the MPXY library: the shared-memory registration
(`gShmemSet`, `gShmemSize`, `gShmemPhysLo`) and the byte contents of
physical memory at the shared-memory window. -/
structure MpxyShmemState where
  gShmemSet : Bool
  gShmemSize : Nat
  gShmemPhysLo : Nat
  /-- Byte content of the hart's shared-memory region, by physical
  address. -/
  mem : Nat → Nat

/-- `SbiMpxySendMessage` (`CommonRiscvMpxy.c` lines 448-499; the variant
in `DxeRiscvMpxy.c` lines 99-147 has identical checks): fails with
`EFI_DEVICE_ERROR` when no shared memory is set, with
`EFI_INVALID_PARAMETER` when the message length is not below the
negotiated size, and otherwise copies the message into the shared-memory
window and performs the synchronous send.  The result records the final
status, the updated memory, whether the `SBI_EXT_MPXY_SEND_MSG_WITH_RESP`
call was performed, and the response copy-back region (source physical
address and length) when one occurred. -/
def SbiMpxySendMessage (st : MpxyShmemState) (sendRet : SBI_RET)
    (ResponseNonNull : Bool) (Message : Nat → Nat) (MessageDataLen : Nat) :
    EFI_STATUS × MpxyShmemState × Bool × Option (Nat × Nat) :=
  let Phys := st.gShmemPhysLo
  if ¬ st.gShmemSet then
    (EFI_DEVICE_ERROR, st, false, none)
  else if MessageDataLen ≥ st.gShmemSize then
    (EFI_INVALID_PARAMETER, st, false, none)
  else
    let st1 := { st with
      mem := fun a =>
        if Phys ≤ a ∧ a < Phys + MessageDataLen then Message (a - Phys)
        else st.mem a }
    (TranslateError sendRet.Error, st1, true,
     if sendRet.Error = SBI_SUCCESS ∧ ResponseNonNull then
       some (Phys, sendRet.Value)
     else none)

/-! ## TVM provisioning (`RiscVTeeDxe/RiscVTeeMmInit.c`) -/

/-- Monitor calls made during TVM provisioning. -/
inductive TeeEvent where
  /-- `SbiTeeHostConvertPages (base, numPages)`. -/
  | convertPages (base numPages : Nat)
  /-- `SbiTeeHostGlobalFence ()`. -/
  | globalFence
  /-- `SbiTeeHostCreateTvm` with the page-directory and state addresses from
  `TVM_CREATE_PARAMS`. -/
  | createTvm (pageDirectoryAddr stateAddr : Nat)
  /-- `SbiTeeHostCreateTvmVcpu (vcpuId, stateAddr)`. -/
  | createTvmVcpu (vcpuId stateAddr : Nat)
  /-- `SbiTeeHostAddTvmPageTablePages (base, numPages)`. -/
  | addTvmPageTablePages (base numPages : Nat)
  /-- `SbiTeeHostAddTvmMemoryRegion (gpa, len)`. -/
  | addTvmMemoryRegion (gpa len : Nat)
  /-- `SbiTeeHostAddTvmMeasuredPages (srcAddr, destAddr, numPages, gpa)`. -/
  | addTvmMeasuredPages (srcAddr destAddr numPages gpa : Nat)
  /-- `SbiTeeHostAddTvmZeroPages (base, numPages, gpa)`. -/
  | addTvmZeroPages (base numPages gpa : Nat)
  /-- `SbiTeeHostFinalizeTvm (entry, bootArg)`. -/
  | finalizeTvm (entry bootArg : Nat)
deriving DecidableEq, Repr

/-- `ALIGN_VALUE` from edk2 `Base.h` for power-of-two alignments. -/
def ALIGN_VALUE (v a : Nat) : Nat := (v + a - 1) / a * a

/-- `CalculateMaxPtePages` in `RiscVTeeMmInit.c` (lines 60-73), SV48. -/
def CalculateMaxPtePages (TotalSize : Nat) : Nat :=
  let NumL1 := TotalSize / SIZE_4KB / 512 + 1
  let NumL2 := NumL1 / 512 + 1
  let NumL3 := NumL2 / 512 + 1
  let NumL4 := 1
  NumL1 + NumL2 + NumL3 + NumL4

/-- `ConvertToConfidentialMemory` in `RiscVTeeMmInit.c` (lines 75-90): calls
`SbiTeeHostConvertPages` and, if that failed, returns `EFI_DEVICE_ERROR`;
otherwise it calls `SbiTeeHostGlobalFence` and returns `EFI_SUCCESS`.  The
second argument is the `SBI_RET` the global fence comes back with: the
source never reads it, so it does not occur on the right-hand side. -/
def ConvertToConfidentialMemory (convertRet _globalFenceRet : SBI_RET)
    (BaseAddr NumPage : Nat) : EFI_STATUS × List TeeEvent :=
  if convertRet.Error ≠ SBI_TEE_SUCCESS then
    (EFI_DEVICE_ERROR, [TeeEvent.convertPages BaseAddr NumPage])
  else
    (EFI_SUCCESS, [TeeEvent.convertPages BaseAddr NumPage, TeeEvent.globalFence])

/-- Parameters of one `StandaloneMmInitialization` run: the TSM page-count
requirements, the reserved allocation for the MM VM, and the firmware-volume
image (`PcdRiscVStandaloneMmFvSize` / `PcdRiscVStandaloneMmFdBase`,
`BootInfoAddr` is the staging page for the measured boot info). -/
structure MmInitParams where
  TvmStatePages : Nat
  TvmVcpuStatePages : Nat
  MmBase : Nat
  MmSize : Nat
  FvSize : Nat
  FdBase : Nat
  BootInfoAddr : Nat
deriving DecidableEq, Repr

/-- The sequence of monitor calls issued by `StandaloneMmInitialization`
(`RiscVTeeMmInit.c` lines 128-281) on the path where every monitor call
succeeds (every failure is met by `ASSERT`, halting the sequence, so any
actual trace is a prefix of this one). -/
def StandaloneMmInitializationTrace (p : MmInitParams) : List TeeEvent :=
  let PageStart0 := ALIGN_VALUE p.MmBase SIZE_16KB
  let PageStart1 := PageStart0 + (p.TvmStatePages + 4) * SIZE_4KB
  let PageStart2 := PageStart1 + p.TvmVcpuStatePages * SIZE_4KB
  let MmTvmSize1 := p.MmSize - (PageStart2 - p.MmBase)
  let NumPtePages := CalculateMaxPtePages MmTvmSize1
  let PageStart3 := PageStart2 + NumPtePages * SIZE_4KB
  let MmTvmSize2 := p.MmSize - (PageStart3 - p.MmBase)
  let PageStart4 := PageStart3 + MM_VM_BOOT_INFO_SIZE
  let StackBottom := PageStart4
  let PageStart5 := PageStart4 + MM_VM_BOOT_STACK_SIZE
  let HeapStart := PageStart5
  let PageStart6 := PageStart5 + MM_VM_BOOT_HEAP_SIZE
  let PageStart7 := PageStart6 + p.FvSize
  let MmTvmSize3 :=
    if p.MmSize - (PageStart7 - p.MmBase) <
       MmTvmSize2 - (MM_VM_RAM_IMAGE_START_OFFSET + p.FvSize) then
      p.MmSize - (PageStart7 - p.MmBase)
    else
      MmTvmSize2 - (MM_VM_RAM_IMAGE_START_OFFSET + p.FvSize)
  [TeeEvent.convertPages PageStart0 (p.TvmStatePages + 4),
   TeeEvent.globalFence,
   TeeEvent.createTvm PageStart0 (PageStart0 + SIZE_16KB),
   TeeEvent.convertPages PageStart1 p.TvmVcpuStatePages,
   TeeEvent.globalFence,
   TeeEvent.createTvmVcpu RISCV_TEE_VCPU_ID PageStart1,
   TeeEvent.convertPages PageStart2 NumPtePages,
   TeeEvent.globalFence,
   TeeEvent.addTvmPageTablePages PageStart2 NumPtePages,
   TeeEvent.addTvmMemoryRegion MM_VM_RAM_BASE MmTvmSize2,
   TeeEvent.convertPages PageStart3 (MM_VM_BOOT_INFO_SIZE / SIZE_4KB),
   TeeEvent.globalFence,
   TeeEvent.addTvmMeasuredPages p.BootInfoAddr PageStart3
     (MM_VM_BOOT_INFO_SIZE / SIZE_4KB) (MM_VM_RAM_BASE + MM_VM_BOOT_INFO_OFFSET),
   TeeEvent.convertPages StackBottom (MM_VM_BOOT_STACK_SIZE / SIZE_4KB),
   TeeEvent.globalFence,
   TeeEvent.convertPages HeapStart (MM_VM_BOOT_HEAP_SIZE / SIZE_4KB),
   TeeEvent.globalFence,
   TeeEvent.convertPages PageStart6 (p.FvSize / SIZE_4KB),
   TeeEvent.globalFence,
   TeeEvent.addTvmMeasuredPages p.FdBase PageStart6 (p.FvSize / SIZE_4KB)
     (MM_VM_RAM_BASE + MM_VM_RAM_IMAGE_START_OFFSET),
   TeeEvent.convertPages PageStart7 (MmTvmSize3 / SIZE_4KB),
   TeeEvent.globalFence,
   TeeEvent.finalizeTvm (MM_VM_RAM_BASE + MM_VM_RAM_IMAGE_START_OFFSET)
     (MM_VM_RAM_BASE + MM_VM_BOOT_INFO_OFFSET),
   TeeEvent.addTvmZeroPages PageStart7 (MmTvmSize3 / SIZE_4KB)
     (MM_VM_RAM_BASE + MM_VM_RAM_IMAGE_START_OFFSET + p.FvSize),
   TeeEvent.addTvmZeroPages StackBottom (MM_VM_BOOT_STACK_SIZE / SIZE_4KB)
     (MM_VM_RAM_BASE + MM_VM_BOOT_STACK_OFFSET),
   TeeEvent.addTvmZeroPages HeapStart (MM_VM_BOOT_HEAP_SIZE / SIZE_4KB)
     (MM_VM_RAM_BASE + MM_VM_BOOT_HEAP_OFFSET)]

/-- Which physical pages a provisioning event donates or assigns to the TVM
(base address and page count): the page-directory plus state area for
`CreateTvm` (`TVM_CREATE_PARAMS` covers `TvmStatePages + 4` pages starting
at the page directory), the VCPU state area, donated page-table pages, the
destination of measured pages, and zero pages.  `None` for calls that assign
no physical pages. -/
def AssignsPages (p : MmInitParams) : TeeEvent → Option (Nat × Nat)
  | TeeEvent.createTvm pd _ => some (pd, p.TvmStatePages + 4)
  | TeeEvent.createTvmVcpu _ a => some (a, p.TvmVcpuStatePages)
  | TeeEvent.addTvmPageTablePages b n => some (b, n)
  | TeeEvent.addTvmMeasuredPages _ d n _ => some (d, n)
  | TeeEvent.addTvmZeroPages b n _ => some (b, n)
  | _ => none

/-- In trace `tr`, some `SbiTeeHostConvertPages` covering the `numPages`
pages at `base` occurs at an index `j`, and a `SbiTeeHostGlobalFence` occurs
at an index `k` with `j < k < i`. -/
def ConvertedAndFencedBefore (tr : List TeeEvent) (i base numPages : Nat) : Prop :=
  ∃ j k b n, j < k ∧ k < i ∧
    b ≤ base ∧ base + numPages * SIZE_4KB ≤ b + n * SIZE_4KB ∧
    tr[j]? = some (TeeEvent.convertPages b n) ∧
    tr[k]? = some TeeEvent.globalFence

/-! ## Concrete fixtures used by the witnesses and counterexamples -/

/-- A concrete module state: fresh TVM `7`, nothing shared, VCPU not
blocked. -/
def cs0 : CoVEState :=
  { mTvmGuestId := 7
    mTvmRunBlock := false
    mGuestSharedMemoryBase := 0
    mGuestSharedMemorySize := 0
    mHostSharedMemoryBase := 0 }

/-- A concrete environment whose `HTINST` holds `lw a0, 0(a0)`
(encoding `0x2003`: opcode `0b0000011`, funct3 `0b010`). -/
def ce0 : CoVEEnv :=
  { aRegs := fun _ => 0
    htinst := 0x2003
    htval := 0x24000000
    stval := 0
    memRead := fun _ _ => 0
    vcpuRunRet := { Error := 0, Value := 0 }
    runTvmRet := { Error := 0, Value := 0 }
    tvmFenceRet := { Error := 0, Value := 0 }
    putCharRet := { Error := 0, Value := 0 }
    addSharedPagesRet := { Error := 0, Value := 0 }
    allocatedPages := 0x7000 }

/-- Environment of an `AddSharedMemory` guest request (`A6 = 2`) declaring
the region `base`/`size`. -/
def ceAdd (base size : Nat) : CoVEEnv :=
  { ce0 with aRegs := fun i => if i = 6 then 2 else if i = 0 then base else if i = 1 then size else 0 }

/-- `cs0` after the host has consumed the guest declaration (the host-side
buffer was allocated at `0x7000`). -/
def csShared : CoVEState := { cs0 with mHostSharedMemoryBase := 0x7000 }

/-- `cs0` with the calling VCPU blocked on an assignment-change. -/
def csBlocked : CoVEState := { cs0 with mTvmRunBlock := true }

/-- An `AddSharedMemory` request environment whose `SbiCoVHTvmFence` comes
back failing with `ALREADY_STARTED` while `SbiCoVHRunTvmVcpu` succeeds. -/
def ceFenceFail : CoVEEnv :=
  { ceAdd 0x81000000 0x1000 with
      tvmFenceRet := { Error := SBI_TEE_ERR_ALREADY_STARTED, Value := 0 } }

/-- Environment of a put-char ecall (`A7 = EXT_PUT_CHAR`). -/
def cePut : CoVEEnv :=
  { ce0 with aRegs := fun i => if i = 7 then EXT_PUT_CHAR else 65 }

/-- Concrete TVM-provisioning parameters: two TVM state pages, one VCPU
state page, a 32 MiB reservation at `0x4000`, a 1 MiB firmware volume. -/
def mmP0 : MmInitParams :=
  { TvmStatePages := 2
    TvmVcpuStatePages := 1
    MmBase := 0x4000
    MmSize := 0x2000000
    FvSize := 0x100000
    FdBase := 0x3000000
    BootInfoAddr := 0x5000 }

/-- An MPXY library state with no shared memory set. -/
def mpxySt0 : MpxyShmemState :=
  { gShmemSet := false
    gShmemSize := 0x1000
    gShmemPhysLo := 0x6000
    mem := fun _ => 0 }

/-! ## C1: MMIO instruction width/direction decode -/

/-- C1: every `HTINST` encoding whose low two bits are `0b11` and whose bits
`[6:2]` are `0b00000` (load) or `0b01000` (store) decodes, for funct3 other
than `0b111`, to exactly the access width 1/2/4/8 given by funct3
(`000/100` to 1, `001/101` to 2, `010/110` to 4, `011` to 8) and to exactly
that direction, performing the single corresponding MMIO access; every other
encoding (compressed low bits, other opcodes, funct3 `0b111`) yields
`EFI_INVALID_PARAMETER` with no access performed and no defaulted width or
direction. -/
theorem claim_C1_mmio_decode (s : CoVEState) (e : CoVEEnv) (FaultAddr : Nat) :
    ((e.htinst % 2 ^ 32) % 4 = 3 →
     ((e.htinst % 2 ^ 32) >>> 2) % 32 = 0 →
     ((e.htinst % 2 ^ 32) >>> 12) % 8 ≠ 7 →
     RiscVCoVEHandleMmioAccess s e FaultAddr =
       (EFI_SUCCESS, s,
        [Event.mmioRead FaultAddr
           (if ((e.htinst % 2 ^ 32) >>> 12) % 8 = 0 ∨ ((e.htinst % 2 ^ 32) >>> 12) % 8 = 4 then 1
            else if ((e.htinst % 2 ^ 32) >>> 12) % 8 = 1 ∨ ((e.htinst % 2 ^ 32) >>> 12) % 8 = 5 then 2
            else if ((e.htinst % 2 ^ 32) >>> 12) % 8 = 2 ∨ ((e.htinst % 2 ^ 32) >>> 12) % 8 = 6 then 4
            else 8)
           (e.memRead FaultAddr
              (if ((e.htinst % 2 ^ 32) >>> 12) % 8 = 0 ∨ ((e.htinst % 2 ^ 32) >>> 12) % 8 = 4 then 1
               else if ((e.htinst % 2 ^ 32) >>> 12) % 8 = 1 ∨ ((e.htinst % 2 ^ 32) >>> 12) % 8 = 5 then 2
               else if ((e.htinst % 2 ^ 32) >>> 12) % 8 = 2 ∨ ((e.htinst % 2 ^ 32) >>> 12) % 8 = 6 then 4
               else 8) % 2 ^ (8 *
              (if ((e.htinst % 2 ^ 32) >>> 12) % 8 = 0 ∨ ((e.htinst % 2 ^ 32) >>> 12) % 8 = 4 then 1
               else if ((e.htinst % 2 ^ 32) >>> 12) % 8 = 1 ∨ ((e.htinst % 2 ^ 32) >>> 12) % 8 = 5 then 2
               else if ((e.htinst % 2 ^ 32) >>> 12) % 8 = 2 ∨ ((e.htinst % 2 ^ 32) >>> 12) % 8 = 6 then 4
               else 8))),
         Event.guestWriteA0
           (e.memRead FaultAddr
              (if ((e.htinst % 2 ^ 32) >>> 12) % 8 = 0 ∨ ((e.htinst % 2 ^ 32) >>> 12) % 8 = 4 then 1
               else if ((e.htinst % 2 ^ 32) >>> 12) % 8 = 1 ∨ ((e.htinst % 2 ^ 32) >>> 12) % 8 = 5 then 2
               else if ((e.htinst % 2 ^ 32) >>> 12) % 8 = 2 ∨ ((e.htinst % 2 ^ 32) >>> 12) % 8 = 6 then 4
               else 8) % 2 ^ (8 *
              (if ((e.htinst % 2 ^ 32) >>> 12) % 8 = 0 ∨ ((e.htinst % 2 ^ 32) >>> 12) % 8 = 4 then 1
               else if ((e.htinst % 2 ^ 32) >>> 12) % 8 = 1 ∨ ((e.htinst % 2 ^ 32) >>> 12) % 8 = 5 then 2
               else if ((e.htinst % 2 ^ 32) >>> 12) % 8 = 2 ∨ ((e.htinst % 2 ^ 32) >>> 12) % 8 = 6 then 4
               else 8)))])) ∧
    ((e.htinst % 2 ^ 32) % 4 = 3 →
     ((e.htinst % 2 ^ 32) >>> 2) % 32 = 8 →
     ((e.htinst % 2 ^ 32) >>> 12) % 8 ≠ 7 →
     RiscVCoVEHandleMmioAccess s e FaultAddr =
       (EFI_SUCCESS, s,
        [Event.mmioWrite FaultAddr
           (if ((e.htinst % 2 ^ 32) >>> 12) % 8 = 0 ∨ ((e.htinst % 2 ^ 32) >>> 12) % 8 = 4 then 1
            else if ((e.htinst % 2 ^ 32) >>> 12) % 8 = 1 ∨ ((e.htinst % 2 ^ 32) >>> 12) % 8 = 5 then 2
            else if ((e.htinst % 2 ^ 32) >>> 12) % 8 = 2 ∨ ((e.htinst % 2 ^ 32) >>> 12) % 8 = 6 then 4
            else 8)
           (e.aRegs 0 % 2 ^ (8 *
              (if ((e.htinst % 2 ^ 32) >>> 12) % 8 = 0 ∨ ((e.htinst % 2 ^ 32) >>> 12) % 8 = 4 then 1
               else if ((e.htinst % 2 ^ 32) >>> 12) % 8 = 1 ∨ ((e.htinst % 2 ^ 32) >>> 12) % 8 = 5 then 2
               else if ((e.htinst % 2 ^ 32) >>> 12) % 8 = 2 ∨ ((e.htinst % 2 ^ 32) >>> 12) % 8 = 6 then 4
               else 8)))])) ∧
    ((e.htinst % 2 ^ 32) % 4 ≠ 3 ∨
     (((e.htinst % 2 ^ 32) >>> 2) % 32 ≠ 0 ∧ ((e.htinst % 2 ^ 32) >>> 2) % 32 ≠ 8) ∨
     ((e.htinst % 2 ^ 32) >>> 12) % 8 = 7 →
     RiscVCoVEHandleMmioAccess s e FaultAddr = (EFI_INVALID_PARAMETER, s, [])) := by
  refine ⟨?_, ?_, ?_⟩
  · intro h1 h2 h3
    have h8 : ((e.htinst % 2 ^ 32) >>> 12) % 8 = 0 ∨ ((e.htinst % 2 ^ 32) >>> 12) % 8 = 1 ∨
        ((e.htinst % 2 ^ 32) >>> 12) % 8 = 2 ∨ ((e.htinst % 2 ^ 32) >>> 12) % 8 = 3 ∨
        ((e.htinst % 2 ^ 32) >>> 12) % 8 = 4 ∨ ((e.htinst % 2 ^ 32) >>> 12) % 8 = 5 ∨
        ((e.htinst % 2 ^ 32) >>> 12) % 8 = 6 ∨ ((e.htinst % 2 ^ 32) >>> 12) % 8 = 7 := by
      omega
    rcases h8 with h | h | h | h | h | h | h | h <;>
      simp_all [RiscVCoVEHandleMmioAccess, RiscVCoVEMmioRegionCheck]
  · intro h1 h2 h3
    have h8 : ((e.htinst % 2 ^ 32) >>> 12) % 8 = 0 ∨ ((e.htinst % 2 ^ 32) >>> 12) % 8 = 1 ∨
        ((e.htinst % 2 ^ 32) >>> 12) % 8 = 2 ∨ ((e.htinst % 2 ^ 32) >>> 12) % 8 = 3 ∨
        ((e.htinst % 2 ^ 32) >>> 12) % 8 = 4 ∨ ((e.htinst % 2 ^ 32) >>> 12) % 8 = 5 ∨
        ((e.htinst % 2 ^ 32) >>> 12) % 8 = 6 ∨ ((e.htinst % 2 ^ 32) >>> 12) % 8 = 7 := by
      omega
    rcases h8 with h | h | h | h | h | h | h | h <;>
      simp_all [RiscVCoVEHandleMmioAccess, RiscVCoVEMmioRegionCheck]
  · intro h
    rcases h with h | ⟨h, h'⟩ | h
    · simp_all [RiscVCoVEHandleMmioAccess]
    · by_cases h4 : (e.htinst % 2 ^ 32) % 4 = 3 <;>
        simp_all [RiscVCoVEHandleMmioAccess]
    · by_cases h4 : (e.htinst % 2 ^ 32) % 4 = 3 <;>
      by_cases h5 : ((e.htinst % 2 ^ 32) >>> 2) % 32 = 0 <;>
      by_cases h6 : ((e.htinst % 2 ^ 32) >>> 2) % 32 = 8 <;>
        simp_all [RiscVCoVEHandleMmioAccess]

/-- C1 witness: the encoding `0x2003` (`lw`) is a well-formed 4-byte load
and decodes to a 4-byte read. -/
theorem claim_C1_witness :
    RiscVCoVEHandleMmioAccess cs0 ce0 0x90000000 =
      (EFI_SUCCESS, cs0, [Event.mmioRead 0x90000000 4 0, Event.guestWriteA0 0]) := by
  have h := (claim_C1_mmio_decode cs0 ce0 0x90000000).1 (by decide) (by decide) (by decide)
  simpa [ce0] using h

/-! ## C2: guest shared-memory single declaration -/

/-- C2 counterexample: starting from a fresh state, a first `AddSharedMemory`
declaration succeeds, and a second declaration issued before the host has
consumed the first one (that is, before `mHostSharedMemoryBase` is set by
the shared-buffer page-fault path) also returns `EFI_SUCCESS`, not
`EFI_ALREADY_STARTED` as the claim requires. -/
theorem claim_C2_counterexample :
    (RiscVCoVEHandleGuestRequest cs0 (ceAdd 0x81000000 0x1000)).1 = EFI_SUCCESS ∧
    (RiscVCoVEHandleGuestRequest
        (RiscVCoVEHandleGuestRequest cs0 (ceAdd 0x81000000 0x1000)).2.1
        (ceAdd 0x82000000 0x2000)).1 = EFI_SUCCESS ∧
    (RiscVCoVEHandleGuestRequest
        (RiscVCoVEHandleGuestRequest cs0 (ceAdd 0x81000000 0x1000)).2.1
        (ceAdd 0x82000000 0x2000)).1 ≠ EFI_ALREADY_STARTED := by
  refine ⟨by decide, by decide, by decide⟩

/-- C2 (amended): an `AddSharedMemory` declaration returns
`EFI_ALREADY_STARTED` exactly when the host has already consumed a previous
declaration (`mHostSharedMemoryBase` non-null, set by the shared-buffer
page-fault path); a second declaration issued before that consumption is
accepted and overwrites the recorded base/size.  The module offers no
release path (`UnshareMemory` is asserted unreachable), so no
redeclaration-after-release behaviour exists. -/
theorem claim_C2_amended (s : CoVEState) (e : CoVEEnv) (h : e.aRegs 6 = 2) :
    ((RiscVCoVEHandleGuestRequest s e).1 = EFI_ALREADY_STARTED ↔
      s.mHostSharedMemoryBase ≠ 0) := by
  by_cases hb : s.mHostSharedMemoryBase = 0 <;>
    simp_all [RiscVCoVEHandleGuestRequest] <;>
    split_ifs <;> simp_all

/-- C2 witness: with the first declaration already consumed by the host, a
further declaration is answered with `EFI_ALREADY_STARTED`. -/
theorem claim_C2_witness :
    (RiscVCoVEHandleGuestRequest csShared (ceAdd 0x81000000 0x1000)).1 =
      EFI_ALREADY_STARTED := by
  have h := claim_C2_amended csShared (ceAdd 0x81000000 0x1000) (by decide)
  exact h.mpr (by decide)

/-! ## C3: resume and fence after servicing a guest request -/

/-- C3: whatever guest sub-operation was serviced, when the calling VCPU is
blocked the handler ends by resuming it with `SbiCoVHRunTvmVcpu` and then
issuing the per-TVM fence `SbiCoVHTvmFence` (the fence is issued
unconditionally, hence in particular whenever the serviced operation changed
the shared/confidential boundary). -/
theorem claim_C3_resume_and_fence (s : CoVEState) (e : CoVEEnv)
    (h : s.mTvmRunBlock = true) :
    ∃ pre mid, (RiscVCoVEHandleGuestRequest s e).2.2 =
      pre ++ [Event.runTvmVcpu s.mTvmGuestId RISCV_COVE_VCPU_ID] ++ mid ++
        [Event.tvmFence s.mTvmGuestId] := by
  by_cases h0 : e.aRegs 6 = 0 <;>
  by_cases h1 : e.aRegs 6 = 1 <;>
  by_cases h2 : e.aRegs 6 = 2 <;>
  by_cases h3 : e.aRegs 6 = 3 <;>
  by_cases hb : s.mHostSharedMemoryBase = 0 <;>
  by_cases hrun : e.runTvmRet.Error = SBI_COVE_SUCCESS <;>
    simp_all [RiscVCoVEHandleGuestRequest, RiscVCoVEMmioRegionCheck] <;>
    (try split_ifs) <;>
    (try simp_all) <;>
    first
      | exact ⟨[], [], rfl⟩
      | exact ⟨[], [Event.assertFail], rfl⟩
      | exact ⟨[Event.assertFail], [], rfl⟩
      | exact ⟨[Event.assertFail], [Event.assertFail], rfl⟩
      | exact ⟨[Event.guestWriteA0 0], [], rfl⟩
      | exact ⟨[Event.guestWriteA0 0], [Event.assertFail], rfl⟩

/-- C3 witness: a blocked `AddSharedMemory` request on TVM `7` is followed by
the resume and the per-TVM fence. -/
theorem claim_C3_witness :
    ∃ pre mid, (RiscVCoVEHandleGuestRequest csBlocked (ceAdd 0x81000000 0x1000)).2.2 =
      pre ++ [Event.runTvmVcpu 7 RISCV_COVE_VCPU_ID] ++ mid ++
        [Event.tvmFence 7] := by
  have h := claim_C3_resume_and_fence csBlocked (ceAdd 0x81000000 0x1000) rfl
  simpa [csBlocked, cs0] using h

/-! ## C10: AddSharedMemory records base/size before its checks -/

/-- C10: every `AddSharedMemory` request overwrites the recorded
`mGuestSharedMemoryBase`/`mGuestSharedMemorySize` with the requested values
before the duplicate and maximum-size checks run, so a rejected declaration
still overwrites the previously recorded values. -/
theorem claim_C10_overwrite (s : CoVEState) (e : CoVEEnv) (h : e.aRegs 6 = 2) :
    (RiscVCoVEHandleGuestRequest s e).2.1.mGuestSharedMemoryBase = e.aRegs 0 ∧
    (RiscVCoVEHandleGuestRequest s e).2.1.mGuestSharedMemorySize = e.aRegs 1 := by
  by_cases hb : s.mHostSharedMemoryBase = 0 <;>
    simp_all [RiscVCoVEHandleGuestRequest] <;>
    split_ifs <;> simp_all

/-- C10 witness: a declaration rejected with `EFI_ALREADY_STARTED` (host
side already consumed) still overwrites the recorded base and size. -/
theorem claim_C10_witness :
    (RiscVCoVEHandleGuestRequest csShared (ceAdd 0x81000000 0x1000)).2.1.mGuestSharedMemoryBase
        = 0x81000000 ∧
    (RiscVCoVEHandleGuestRequest csShared (ceAdd 0x81000000 0x1000)).2.1.mGuestSharedMemorySize
        = 0x1000 := by
  have h := claim_C10_overwrite csShared (ceAdd 0x81000000 0x1000) (by decide)
  simpa [ceAdd, ce0] using h

/-! ## C4: run-loop termination behaviour -/

/-- Helper: the trap dispatcher answers a virtual-instruction exception with
`EFI_INVALID_PARAMETER` unconditionally. -/
theorem RiscVCoVEException_virtual_inst (s : CoVEState) (e : CoVEEnv) :
    (RiscVCoVEException EXCEPT_RISCV_VIRTUAL_INSTRUCTION s e).1 =
      EFI_INVALID_PARAMETER := rfl

/-- C4: the `RiscVTriggerMM` do/while loop re-runs the VCPU after every trap
the dispatcher can service (any status other than `EFI_INVALID_PARAMETER`)
and exits exactly when the dispatcher reports `EFI_INVALID_PARAMETER`; a
virtual-instruction exception always yields `EFI_INVALID_PARAMETER`, so it
always terminates the loop — the remaining trap schedule is never
serviced. -/
theorem claim_C4_run_loop :
    (∀ (s : CoVEState) (e : CoVEEnv),
       (RiscVCoVEException EXCEPT_RISCV_VIRTUAL_INSTRUCTION s e).1 =
         EFI_INVALID_PARAMETER) ∧
    (∀ (s : CoVEState) (e : CoVEEnv) (ts : List (Nat × CoVEEnv)),
       RiscVTriggerMMLoop s ((EXCEPT_RISCV_VIRTUAL_INSTRUCTION, e) :: ts) =
         RiscVTriggerMMLoop s [(EXCEPT_RISCV_VIRTUAL_INSTRUCTION, e)]) ∧
    (∀ (s : CoVEState) (c : Nat) (e : CoVEEnv) (ts : List (Nat × CoVEEnv)),
       (RiscVCoVEException c
           { s with mTvmRunBlock := decide (e.vcpuRunRet.Value % 256 ≠ 0) } e).1 ≠
         EFI_INVALID_PARAMETER →
       (RiscVTriggerMMLoop s ((c, e) :: ts)).2.2 =
         (RiscVTriggerMMLoop
           (RiscVCoVEException c
             { s with mTvmRunBlock := decide (e.vcpuRunRet.Value % 256 ≠ 0) } e).2.1
           ts).2.2 + 1) := by
  refine ⟨fun s e => RiscVCoVEException_virtual_inst s e, fun s e ts => ?_, fun s c e ts h => ?_⟩
  · simp [RiscVTriggerMMLoop, RiscVCoVEException_virtual_inst]
  · simp_all [RiscVTriggerMMLoop]

/-- C4 witness: a serviceable put-char ecall makes the loop consume the next
trap as well, while the virtual-instruction trap that follows stops it. -/
theorem claim_C4_witness :
    (RiscVTriggerMMLoop cs0
        [(EXCEPT_RISCV_ENV_CALL_FROM_VS_MODE, cePut),
         (EXCEPT_RISCV_VIRTUAL_INSTRUCTION, ce0)]).2.2 =
      (RiscVTriggerMMLoop
        (RiscVCoVEException EXCEPT_RISCV_ENV_CALL_FROM_VS_MODE
          { cs0 with mTvmRunBlock := decide (cePut.vcpuRunRet.Value % 256 ≠ 0) }
          cePut).2.1
        [(EXCEPT_RISCV_VIRTUAL_INSTRUCTION, ce0)]).2.2 + 1 := by
  have hserv : (RiscVCoVEException EXCEPT_RISCV_ENV_CALL_FROM_VS_MODE
      { cs0 with mTvmRunBlock := decide (cePut.vcpuRunRet.Value % 256 ≠ 0) }
      cePut).1 ≠ EFI_INVALID_PARAMETER := by decide
  exact claim_C4_run_loop.2.2 cs0 EXCEPT_RISCV_ENV_CALL_FROM_VS_MODE cePut
    [(EXCEPT_RISCV_VIRTUAL_INSTRUCTION, ce0)] hserv

/-! ## C7: guest page-fault address decode -/

/-- Helper: every MMIO device access performed by `RiscVCoVEHandleMmioAccess`
is at the `FaultAddr` it was given. -/
theorem RiscVCoVEHandleMmioAccess_addr (s : CoVEState) (e : CoVEEnv)
    (FaultAddr : Nat) : ∀ a sz v,
    (Event.mmioRead a sz v ∈ (RiscVCoVEHandleMmioAccess s e FaultAddr).2.2 →
      a = FaultAddr) ∧
    (Event.mmioWrite a sz v ∈ (RiscVCoVEHandleMmioAccess s e FaultAddr).2.2 →
      a = FaultAddr) := by
  intro a sz v
  simp only [RiscVCoVEHandleMmioAccess]
  split_ifs <;> simp_all [RiscVCoVEMmioRegionCheck]

/-- Helper: on a guest load/store page-fault cause, the dispatcher reduces to
the shared-buffer/MMIO classification of the fault address
`(HTVAL << 2) | (STVAL & 0x3)`. -/
theorem RiscVCoVEException_fault_eq (c : Nat) (s : CoVEState) (e : CoVEEnv)
    (hc : c = EXCEPT_RISCV_LOAD_GUEST_PAGE_FAULT ∨
          c = EXCEPT_RISCV_STORE_GUEST_PAGE_FAULT) :
    RiscVCoVEException c s e =
      (if MM_VM_RAM_BASE + MM_VM_RAM_MM_SHARED_BUF_OFFSET ≤
            ((e.htval <<< 2) % 2 ^ 64) ||| (e.stval &&& 3) ∧
          ((e.htval <<< 2) % 2 ^ 64) ||| (e.stval &&& 3) <
            MM_VM_RAM_BASE + MM_VM_RAM_MM_SHARED_BUF_OFFSET +
              MM_VM_RAM_MM_SHARED_BUF_SIZE then
         (if s.mHostSharedMemoryBase = 0 then
            (EFI_SUCCESS, { s with mHostSharedMemoryBase := e.allocatedPages },
              (if e.allocatedPages = 0 then [Event.assertFail] else []) ++
                [Event.addTvmSharedPages s.mTvmGuestId e.allocatedPages
                  (MM_VM_RAM_MM_SHARED_BUF_SIZE / SIZE_4KB)
                  (MM_VM_RAM_BASE + MM_VM_RAM_MM_SHARED_BUF_OFFSET)] ++
                (if e.addSharedPagesRet.Error ≠ SBI_SUCCESS then [Event.assertFail] else []))
          else
            (EFI_SUCCESS, s, []))
       else
         RiscVCoVEHandleMmioAccess s e
           (((e.htval <<< 2) % 2 ^ 64) ||| (e.stval &&& 3))) := by
  rcases hc with hc | hc <;> subst hc <;> rfl

/-- C7: for a guest load or store page-fault exit the dispatcher computes
the faulting guest-physical address as `(HTVAL << 2) | (STVAL & 0x3)`
(`HTVAL` from the hypervisor-CSR area of the shared state, wrap modulo
`2^64` from the 64-bit shift): every MMIO access it performs is at exactly
that address, a fault inside the shared-buffer window is classified as the
shared-buffer case (servicing it with `EFI_SUCCESS`), and a fault outside
it is dispatched to the MMIO handler at that address. -/
theorem claim_C7_fault_addr (c : Nat) (s : CoVEState) (e : CoVEEnv)
    (hc : c = EXCEPT_RISCV_LOAD_GUEST_PAGE_FAULT ∨
          c = EXCEPT_RISCV_STORE_GUEST_PAGE_FAULT) :
    (∀ a sz v, Event.mmioRead a sz v ∈ (RiscVCoVEException c s e).2.2 →
       a = ((e.htval <<< 2) % 2 ^ 64) ||| (e.stval &&& 3)) ∧
    (∀ a sz v, Event.mmioWrite a sz v ∈ (RiscVCoVEException c s e).2.2 →
       a = ((e.htval <<< 2) % 2 ^ 64) ||| (e.stval &&& 3)) ∧
    (¬ (MM_VM_RAM_BASE + MM_VM_RAM_MM_SHARED_BUF_OFFSET ≤
          ((e.htval <<< 2) % 2 ^ 64) ||| (e.stval &&& 3) ∧
        ((e.htval <<< 2) % 2 ^ 64) ||| (e.stval &&& 3) <
          MM_VM_RAM_BASE + MM_VM_RAM_MM_SHARED_BUF_OFFSET +
            MM_VM_RAM_MM_SHARED_BUF_SIZE) →
      RiscVCoVEException c s e =
        RiscVCoVEHandleMmioAccess s e
          (((e.htval <<< 2) % 2 ^ 64) ||| (e.stval &&& 3))) ∧
    ((MM_VM_RAM_BASE + MM_VM_RAM_MM_SHARED_BUF_OFFSET ≤
          ((e.htval <<< 2) % 2 ^ 64) ||| (e.stval &&& 3) ∧
        ((e.htval <<< 2) % 2 ^ 64) ||| (e.stval &&& 3) <
          MM_VM_RAM_BASE + MM_VM_RAM_MM_SHARED_BUF_OFFSET +
            MM_VM_RAM_MM_SHARED_BUF_SIZE) →
      (RiscVCoVEException c s e).1 = EFI_SUCCESS) := by
  rw [RiscVCoVEException_fault_eq c s e hc]
  by_cases hin : (MM_VM_RAM_BASE + MM_VM_RAM_MM_SHARED_BUF_OFFSET ≤
      ((e.htval <<< 2) % 2 ^ 64) ||| (e.stval &&& 3) ∧
      ((e.htval <<< 2) % 2 ^ 64) ||| (e.stval &&& 3) <
      MM_VM_RAM_BASE + MM_VM_RAM_MM_SHARED_BUF_OFFSET +
        MM_VM_RAM_MM_SHARED_BUF_SIZE)
  · rw [if_pos hin]
    refine ⟨?_, ?_, fun hno => absurd hin hno, ?_⟩ <;>
      (try intro a sz v) <;>
      by_cases hb : s.mHostSharedMemoryBase = 0 <;>
      split_ifs <;> simp_all
  · rw [if_neg hin]
    refine ⟨?_, ?_, fun _ => rfl, fun hyes => absurd hyes hin⟩ <;>
      intro a sz v <;>
      first
        | exact (RiscVCoVEHandleMmioAccess_addr s e _ a sz v).1
        | exact (RiscVCoVEHandleMmioAccess_addr s e _ a sz v).2

/-- C7 witness: `HTVAL = 0x24000000`, `STVAL = 0` decode to fault address
`0x90000000`, which is outside the shared-buffer window, so the load
page-fault is dispatched to the MMIO handler at that address. -/
theorem claim_C7_witness :
    RiscVCoVEException EXCEPT_RISCV_LOAD_GUEST_PAGE_FAULT cs0 ce0 =
      RiscVCoVEHandleMmioAccess cs0 ce0
        (((ce0.htval <<< 2) % 2 ^ 64) ||| (ce0.stval &&& 3)) :=
  (claim_C7_fault_addr EXCEPT_RISCV_LOAD_GUEST_PAGE_FAULT cs0 ce0
    (Or.inl rfl)).2.2.1 (by decide)

/-! ## C9: fence statuses are discarded -/

/-- C9 counterexample: two monitor call sites discard the fence status
instead of checking it.  `ConvertToConfidentialMemory` returns `EFI_SUCCESS`
even when `SbiTeeHostGlobalFence` comes back with `ALREADY_STARTED` (its
output does not depend on the fence result at all), and the guest-request
handler neither propagates nor asserts on a failing `SbiCoVHTvmFence`: with
the fence failing it still returns `EFI_SUCCESS` and raises no assertion. -/
theorem claim_C9_counterexample :
    (ConvertToConfidentialMemory { Error := 0, Value := 0 }
        { Error := SBI_TEE_ERR_ALREADY_STARTED, Value := 0 } 0x1000 2).1 =
      EFI_SUCCESS ∧
    (ConvertToConfidentialMemory { Error := 0, Value := 0 }
        { Error := SBI_TEE_ERR_ALREADY_STARTED, Value := 0 } 0x1000 2).2 =
      [TeeEvent.convertPages 0x1000 2, TeeEvent.globalFence] ∧
    (RiscVCoVEHandleGuestRequest csBlocked ceFenceFail).1 = EFI_SUCCESS ∧
    Event.assertFail ∉ (RiscVCoVEHandleGuestRequest csBlocked ceFenceFail).2.2 ∧
    Event.tvmFence 7 ∈ (RiscVCoVEHandleGuestRequest csBlocked ceFenceFail).2.2 := by
  refine ⟨by decide, by decide, by decide, by decide, by decide⟩

/-- C9 (amended): monitor call sites other than the fences check their
status — `ConvertToConfidentialMemory` turns a failing
`SbiTeeHostConvertPages` into `EFI_DEVICE_ERROR` without fencing, and the
guest-request handler asserts when `SbiCoVHRunTvmVcpu` fails — but the two
fence calls are fire-and-forget: the result of `SbiTeeHostGlobalFence` and
of `SbiCoVHTvmFence` never influences the caller's outcome. -/
theorem claim_C9_amended :
    (∀ (cr f : SBI_RET) (b n : Nat), cr.Error ≠ SBI_TEE_SUCCESS →
       ConvertToConfidentialMemory cr f b n =
         (EFI_DEVICE_ERROR, [TeeEvent.convertPages b n])) ∧
    (∀ (cr f1 f2 : SBI_RET) (b n : Nat),
       ConvertToConfidentialMemory cr f1 b n =
         ConvertToConfidentialMemory cr f2 b n) ∧
    (∀ (s : CoVEState) (e : CoVEEnv) (r1 r2 : SBI_RET),
       RiscVCoVEHandleGuestRequest s { e with tvmFenceRet := r1 } =
         RiscVCoVEHandleGuestRequest s { e with tvmFenceRet := r2 }) ∧
    (∀ (s : CoVEState) (e : CoVEEnv), s.mTvmRunBlock = true →
       e.runTvmRet.Error ≠ SBI_COVE_SUCCESS →
       Event.assertFail ∈ (RiscVCoVEHandleGuestRequest s e).2.2) := by
  refine ⟨fun cr f b n h => ?_, fun cr f1 f2 b n => rfl, fun s e r1 r2 => rfl,
    fun s e hr hrun => ?_⟩
  · simp [ConvertToConfidentialMemory, h]
  · by_cases h0 : e.aRegs 6 = 0 <;>
    by_cases h1 : e.aRegs 6 = 1 <;>
    by_cases h2 : e.aRegs 6 = 2 <;>
    by_cases h3 : e.aRegs 6 = 3 <;>
    by_cases hb : s.mHostSharedMemoryBase = 0 <;>
      simp_all [RiscVCoVEHandleGuestRequest, RiscVCoVEMmioRegionCheck] <;>
      (try split_ifs) <;>
      simp_all

/-- C9 witness: a failing `SbiTeeHostConvertPages` is reported as
`EFI_DEVICE_ERROR`, and a blocked request whose resume call fails raises the
assertion. -/
theorem claim_C9_witness :
    ConvertToConfidentialMemory { Error := SBI_TEE_ERR_ALREADY_STARTED, Value := 0 }
        { Error := 0, Value := 0 } 0x1000 2 =
      (EFI_DEVICE_ERROR, [TeeEvent.convertPages 0x1000 2]) ∧
    Event.assertFail ∈
      (RiscVCoVEHandleGuestRequest csBlocked
        { ce0 with runTvmRet := { Error := 3, Value := 0 } }).2.2 := by
  refine ⟨claim_C9_amended.1 { Error := SBI_TEE_ERR_ALREADY_STARTED, Value := 0 }
    { Error := 0, Value := 0 } 0x1000 2 (by decide),
    claim_C9_amended.2.2.2 csBlocked
      { ce0 with runTvmRet := { Error := 3, Value := 0 } } rfl (by decide)⟩

/-! ## C6: MPXY send-message failure guarantees -/

/-- C6: `SbiMpxySendMessage` fails with `EFI_DEVICE_ERROR` when no shared
memory is set and with `EFI_INVALID_PARAMETER` when the message length
reaches the negotiated size, in both cases before any byte is copied into
the shared-memory window and without performing the SBI send; any copy or
send implies both checks passed, and when they pass the message bytes are
copied to the window and the synchronous send is performed. -/
theorem claim_C6_send_checks (st : MpxyShmemState) (sendRet : SBI_RET)
    (rnn : Bool) (Message : Nat → Nat) (MessageDataLen : Nat) :
    (st.gShmemSet = false →
       SbiMpxySendMessage st sendRet rnn Message MessageDataLen =
         (EFI_DEVICE_ERROR, st, false, none)) ∧
    (st.gShmemSet = true → MessageDataLen ≥ st.gShmemSize →
       SbiMpxySendMessage st sendRet rnn Message MessageDataLen =
         (EFI_INVALID_PARAMETER, st, false, none)) ∧
    (∀ status st1 sent resp,
       SbiMpxySendMessage st sendRet rnn Message MessageDataLen =
         (status, st1, sent, resp) →
       (sent = true ∨ st1.mem ≠ st.mem) →
       st.gShmemSet = true ∧ MessageDataLen < st.gShmemSize) ∧
    (st.gShmemSet = true → MessageDataLen < st.gShmemSize →
       (SbiMpxySendMessage st sendRet rnn Message MessageDataLen).2.2.1 = true ∧
       (SbiMpxySendMessage st sendRet rnn Message MessageDataLen).2.1.mem =
         fun a => if st.gShmemPhysLo ≤ a ∧ a < st.gShmemPhysLo + MessageDataLen
                  then Message (a - st.gShmemPhysLo) else st.mem a) := by
  refine ⟨fun h => by simp [SbiMpxySendMessage, h], fun h1 h2 => ?_, ?_, fun h1 h2 => ?_⟩
  · simp [SbiMpxySendMessage, h1, h2]
  · intro status st1 sent resp heq hact
    by_cases h1 : st.gShmemSet
    · by_cases h2 : MessageDataLen ≥ st.gShmemSize
      · simp [SbiMpxySendMessage, h1, h2] at heq
        rcases hact with hs | hm <;> simp_all
      · exact ⟨by simpa using h1, Nat.lt_of_not_ge h2⟩
    · have h1f : st.gShmemSet = false := by simpa using h1
      simp [SbiMpxySendMessage, h1f] at heq
      rcases hact with hs | hm <;> simp_all
  · have h3 : ¬ MessageDataLen ≥ st.gShmemSize := Nat.not_le.mpr h2
    refine ⟨by simp [SbiMpxySendMessage, h1, h3], by simp [SbiMpxySendMessage, h1, h3]⟩

/-- C6 witness: with no shared memory set the send fails cleanly with
`EFI_DEVICE_ERROR`, memory untouched, no SBI send performed. -/
theorem claim_C6_witness :
    SbiMpxySendMessage mpxySt0 { Error := 0, Value := 0 } true (fun _ => 0) 4 =
      (EFI_DEVICE_ERROR, mpxySt0, false, none) :=
  (claim_C6_send_checks mpxySt0 { Error := 0, Value := 0 } true (fun _ => 0) 4).1 rfl

/-! ## C5: delegated event loop completion status -/

/-- C5 (bug evaluation): each iteration of `DelegatedEventLoop` retrieves
exactly one message, dispatches it once, and signals exactly one completion
— but `SendMMComplete` zeroes `mm_data.Arg0`/`Arg1` before sending, so the
completion always carries status `0`: the translated dispatcher status
stored at `StandaloneMmCoreEntryPoint.c:296` never reaches the transport.
With a dispatcher answering `EFI_ACCESS_DENIED` the completion still
carries `0` (not `RISCV_SMM_RET_DENIED`), and the emitted trace is
identical to the one for a dispatcher answering `EFI_SUCCESS`. -/
theorem claim_C5_completion_clobbered :
    (∀ (ib : Nat) (args : RISCV_SMM_MSG_COMM_ARGS) (arg1 : Nat)
       (res : EFI_STATUS) (rest : List (Nat × EFI_STATUS)),
       DelegatedEventLoopAux ib args ((arg1, res) :: rest) =
         MmEvent.retrieveMessage ::
           MmEvent.dispatch ((ib + arg1) % 2 ^ 64) ::
             MmEvent.complete 0 0 ::
               DelegatedEventLoopAux ((ib + arg1) % 2 ^ 64)
                 { Arg0 := 0, Arg1 := 0 } rest) ∧
    DelegatedEventLoop 0x1000 { Arg0 := 9, Arg1 := 9 } [(0, EFI_ACCESS_DENIED)] =
      [MmEvent.complete 0 0, MmEvent.retrieveMessage, MmEvent.dispatch 0x1000,
       MmEvent.complete 0 0] ∧
    RISCV_SMM_RET_DENIED ≠ 0 ∧
    DelegatedEventLoop 0x1000 { Arg0 := 9, Arg1 := 9 } [(0, EFI_ACCESS_DENIED)] =
      DelegatedEventLoop 0x1000 { Arg0 := 9, Arg1 := 9 } [(0, EFI_SUCCESS)] := by
  refine ⟨fun ib args arg1 res rest => rfl, by decide, by decide, by decide⟩

/-! ## C8: global fence before every page assignment -/

set_option maxHeartbeats 3200000 in
/-- C8: in the TVM provisioning sequence, every monitor call that donates or
assigns physical pages to the TVM (`CreateTvm`, `CreateTvmVcpu`,
`AddTvmPageTablePages`, `AddTvmMeasuredPages`, `AddTvmZeroPages`) is
preceded by a `SbiTeeHostConvertPages` covering exactly those pages followed
by a `SbiTeeHostGlobalFence`, both strictly before the assignment. -/
theorem claim_C8_fence_before_assign (p : MmInitParams) (i : Nat)
    (ev : TeeEvent) (b n : Nat)
    (hev : (StandaloneMmInitializationTrace p)[i]? = some ev)
    (hassign : AssignsPages p ev = some (b, n)) :
    ConvertedAndFencedBefore (StandaloneMmInitializationTrace p) i b n := by
  have hlen : i < (StandaloneMmInitializationTrace p).length := by
    by_contra hge
    rw [List.getElem?_eq_none (Nat.le_of_not_lt hge)] at hev
    exact Option.noConfusion hev
  have hl : (StandaloneMmInitializationTrace p).length = 26 := by
    simp [StandaloneMmInitializationTrace]
  rw [hl] at hlen
  interval_cases i <;>
    simp only [StandaloneMmInitializationTrace, List.getElem?_cons_succ,
      List.getElem?_cons_zero, Option.some.injEq] at hev <;>
    subst hev <;>
    simp only [AssignsPages] at hassign <;>
    (try exact Option.noConfusion hassign) <;>
    (rw [Option.some.injEq, Prod.mk.injEq] at hassign
     obtain ⟨hb, hn⟩ := hassign
     subst hb
     subst hn)
  · exact ⟨0, 1, _, _, by omega, by omega, Nat.le_refl _, Nat.le_refl _, rfl, rfl⟩
  · exact ⟨3, 4, _, _, by omega, by omega, Nat.le_refl _, Nat.le_refl _, rfl, rfl⟩
  · exact ⟨6, 7, _, _, by omega, by omega, Nat.le_refl _, Nat.le_refl _, rfl, rfl⟩
  · exact ⟨10, 11, _, _, by omega, by omega, Nat.le_refl _, Nat.le_refl _, rfl, rfl⟩
  · exact ⟨17, 18, _, _, by omega, by omega, Nat.le_refl _, Nat.le_refl _, rfl, rfl⟩
  · exact ⟨20, 21, _, _, by omega, by omega, Nat.le_refl _, Nat.le_refl _, rfl, rfl⟩
  · exact ⟨13, 14, _, _, by omega, by omega, Nat.le_refl _, Nat.le_refl _, rfl, rfl⟩
  · exact ⟨15, 16, _, _, by omega, by omega, Nat.le_refl _, Nat.le_refl _, rfl, rfl⟩

/-- C8 witness: in the concrete provisioning run `mmP0`, the `CreateTvm`
donation at index 2 is covered by the convert-and-fence pair at indices
0/1. -/
theorem claim_C8_witness :
    ConvertedAndFencedBefore (StandaloneMmInitializationTrace mmP0) 2 0x4000 6 :=
  claim_C8_fence_before_assign mmP0 2 (TeeEvent.createTvm 0x4000 0x8000)
    0x4000 6 (by decide) (by decide)
